import Mathlib

/-!
Shallow embedding of libs3's `general.c`: the bucket-name validator
(`S3_validate_bucket_name`), the ACL-XML grant assembler
(`convertAclXmlCallback` / `S3_convert_acl`), and the retryability
predicate (`S3_status_is_retryable`), together with theorems checking the
natural-language specification against this embedding.
-/

/-- The `S3Status` enumeration, with exactly the constructors enumerated by
the exhaustive `switch` in `S3_get_status_name` (general.c lines 185-312),
in source order.  The source constructor `S3StatusInvalidBucketNameDotQuadNotation`
is rendered here as `InvalidBucketNameDotQuad`. -/
inductive S3Status where
  | OK
  | InternalError
  | OutOfMemory
  | Interrupted
  | FailedToCreateMutex
  | InvalidBucketNameTooLong
  | InvalidBucketNameFirstCharacter
  | InvalidBucketNameCharacter
  | InvalidBucketNameCharacterSequence
  | InvalidBucketNameTooShort
  | InvalidBucketNameDotQuad
  | QueryParamsTooLong
  | FailedToInitializeRequest
  | MetaDataHeadersTooLong
  | BadMetaData
  | BadContentType
  | ContentTypeTooLong
  | BadMD5
  | MD5TooLong
  | BadCacheControl
  | CacheControlTooLong
  | BadContentDispositionFilename
  | ContentDispositionFilenameTooLong
  | BadContentEncoding
  | ContentEncodingTooLong
  | BadIfMatchETag
  | IfMatchETagTooLong
  | BadIfNotMatchETag
  | IfNotMatchETagTooLong
  | HeadersTooLong
  | KeyTooLong
  | UriTooLong
  | XmlParseFailure
  | BadAclEmailAddressTooLong
  | BadAclUserIdTooLong
  | BadAclUserDisplayNameTooLong
  | BadAclGroupUriTooLong
  | BadAclPermissionTooLong
  | TooManyAclGrants
  | BadAclGrantee
  | BadAclPermission
  | AclXmlDocumentTooLarge
  | NameLookupError
  | FailedToConnect
  | ServerFailedVerification
  | ConnectionFailed
  | AbortedByCallback
  | ErrorAccessDenied
  | ErrorAccountProblem
  | ErrorAmbiguousGrantByEmailAddress
  | ErrorBadDigest
  | ErrorBucketAlreadyExists
  | ErrorBucketAlreadyOwnedByYou
  | ErrorBucketNotEmpty
  | ErrorCredentialsNotSupported
  | ErrorCrossLocationLoggingProhibited
  | ErrorEntityTooSmall
  | ErrorEntityTooLarge
  | ErrorExpiredToken
  | ErrorIncompleteBody
  | ErrorIncorrectNumberOfFilesInPostRequest
  | ErrorInlineDataTooLarge
  | ErrorInternalError
  | ErrorInvalidAccessKeyId
  | ErrorInvalidAddressingHeader
  | ErrorInvalidArgument
  | ErrorInvalidBucketName
  | ErrorInvalidDigest
  | ErrorInvalidLocationConstraint
  | ErrorInvalidPayer
  | ErrorInvalidPolicyDocument
  | ErrorInvalidRange
  | ErrorInvalidSecurity
  | ErrorInvalidSOAPRequest
  | ErrorInvalidStorageClass
  | ErrorInvalidTargetBucketForLogging
  | ErrorInvalidToken
  | ErrorInvalidURI
  | ErrorKeyTooLong
  | ErrorMalformedACLError
  | ErrorMalformedXML
  | ErrorMaxMessageLengthExceeded
  | ErrorMaxPostPreDataLengthExceededError
  | ErrorMetadataTooLarge
  | ErrorMethodNotAllowed
  | ErrorMissingAttachment
  | ErrorMissingContentLength
  | ErrorMissingSecurityElement
  | ErrorMissingSecurityHeader
  | ErrorNoLoggingStatusForKey
  | ErrorNoSuchBucket
  | ErrorNoSuchKey
  | ErrorNotImplemented
  | ErrorNotSignedUp
  | ErrorOperationAborted
  | ErrorPermanentRedirect
  | ErrorPreconditionFailed
  | ErrorRedirect
  | ErrorRequestIsNotMultiPartContent
  | ErrorRequestTimeout
  | ErrorRequestTimeTooSkewed
  | ErrorRequestTorrentOfBucketError
  | ErrorSignatureDoesNotMatch
  | ErrorSlowDown
  | ErrorTemporaryRedirect
  | ErrorTokenRefreshRequired
  | ErrorTooManyBuckets
  | ErrorUnexpectedContent
  | ErrorUnresolvableGrantByEmailAddress
  | ErrorUserKeyMustBeSpecified
  | ErrorUnknown
  | HttpErrorMovedTemporarily
  | HttpErrorBadRequest
  | HttpErrorForbidden
  | HttpErrorNotFound
  | HttpErrorConflict
  | HttpErrorUnknown
deriving DecidableEq

/-- The `S3UriStyle` enumeration (`S3UriStyleVirtualHost`, `S3UriStylePath`). -/
inductive S3UriStyle where
  | VirtualHost
  | Path
deriving DecidableEq, BEq

/-- C-locale `isalpha` over ASCII, as used by `S3_validate_bucket_name`. -/
def c_isalpha (c : Char) : Bool :=
  ('a' ≤ c && c ≤ 'z') || ('A' ≤ c && c ≤ 'Z')

/-- C-locale `isdigit` over ASCII, as used by `S3_validate_bucket_name`. -/
def c_isdigit (c : Char) : Bool :=
  '0' ≤ c && c ≤ '9'

/-- The character-scan loop of `S3_validate_bucket_name` (general.c lines
324-382), instrumented to also return the final value of the `len` counter
and the unconsumed remainder of the input.  `prev` is the character at
`*(b - 1)`, `none` exactly when `b == bucketName`.  The loop's exit code
(the length and dot-quad checks of lines 367-382) is the `[]` case. -/
def bucket_scan (virtualHostStyle : Bool) (maxlen : Nat) :
    List Char → Nat → Bool → Bool → Option Char → S3Status × Nat × List Char
  | [], len, hasDot, hasNonDigit, _ =>
    (if len < 3 then S3Status.InvalidBucketNameTooShort
     else if hasDot && !hasNonDigit then S3Status.InvalidBucketNameDotQuad
     else S3Status.OK, len, [])
  | c :: cs, len, hasDot, hasNonDigit, prev =>
    if len = maxlen then (S3Status.InvalidBucketNameTooLong, len, c :: cs)
    else if c_isalpha c then
      bucket_scan virtualHostStyle maxlen cs (len + 1) hasDot true (some c)
    else if c_isdigit c then
      bucket_scan virtualHostStyle maxlen cs (len + 1) hasDot hasNonDigit (some c)
    else if len = 0 then (S3Status.InvalidBucketNameFirstCharacter, len, c :: cs)
    else if c = '_' then
      if virtualHostStyle then (S3Status.InvalidBucketNameCharacter, len, c :: cs)
      else bucket_scan virtualHostStyle maxlen cs (len + 1) hasDot true (some c)
    else if c = '-' then
      if virtualHostStyle ∧ prev = some '.' then
        (S3Status.InvalidBucketNameCharacterSequence, len, c :: cs)
      else bucket_scan virtualHostStyle maxlen cs (len + 1) hasDot true (some c)
    else if c = '.' then
      if virtualHostStyle ∧ prev = some '-' then
        (S3Status.InvalidBucketNameCharacterSequence, len, c :: cs)
      else bucket_scan virtualHostStyle maxlen cs (len + 1) true hasNonDigit (some c)
    else (S3Status.InvalidBucketNameCharacter, len, c :: cs)

/-- `S3_validate_bucket_name` (general.c lines 315-383). -/
def S3_validate_bucket_name (bucketName : String) (uriStyle : S3UriStyle) :
    S3Status :=
  let virtualHostStyle : Bool := uriStyle == S3UriStyle.VirtualHost
  let maxlen : Nat := if virtualHostStyle then 63 else 255
  (bucket_scan virtualHostStyle maxlen bucketName.toList 0 false false none).1

/-- `S3_status_is_retryable` (general.c lines 587-600), with C's `1`/`0`
rendered as `true`/`false`. -/
def S3_status_is_retryable (status : S3Status) : Bool :=
  match status with
  | S3Status.NameLookupError => true
  | S3Status.FailedToConnect => true
  | S3Status.ConnectionFailed => true
  | S3Status.ErrorInternalError => true
  | S3Status.ErrorOperationAborted => true
  | S3Status.ErrorRequestTimeout => true
  | _ => false

/-- The `S3GranteeType` enumeration. -/
inductive S3GranteeType where
  | AmazonCustomerByEmail
  | CanonicalUser
  | AllAwsUsers
  | AllUsers
deriving DecidableEq

/-- The `S3Permission` enumeration. -/
inductive S3Permission where
  | Read
  | Write
  | ReadACP
  | WriteACP
  | FullControl
deriving DecidableEq

/-- One `S3AclGrant` record.  The C `grantee` union is flattened into
separate fields; each resolution branch of `convertAclXmlCallback` writes
only the fields of its own variant. -/
structure S3AclGrant where
  granteeType : S3GranteeType
  emailAddress : String
  userId : String
  userDisplayName : String
  permission : S3Permission
deriving DecidableEq

/-- An arbitrary slot content, standing for the caller-owned (possibly
uninitialized) memory of an output-array cell. -/
def blankGrant : S3AclGrant :=
  { granteeType := S3GranteeType.AllUsers, emailAddress := "", userId := "",
    userDisplayName := "", permission := S3Permission.Read }

/-- Modelled from the spec: the grantee-user-id capacity
`S3_MAX_GRANTEE_USER_ID_SIZE` is declared in libs3.h, which is not among
the sources; the spec fixes id ≤ 128. -/
def S3_MAX_GRANTEE_USER_ID_SIZE : Nat := 128

/-- Modelled from the spec: the grantee-display-name capacity
`S3_MAX_GRANTEE_DISPLAY_NAME_SIZE` is declared in libs3.h, which is not
among the sources; the spec fixes displayName ≤ 128. -/
def S3_MAX_GRANTEE_DISPLAY_NAME_SIZE : Nat := 128

/-- Modelled from the spec: the grantee-email capacity
`S3_MAX_GRANTEE_EMAIL_ADDRESS_SIZE` is declared in libs3.h, which is not
among the sources; the spec fixes email ≤ 256. -/
def S3_MAX_GRANTEE_EMAIL_ADDRESS_SIZE : Nat := 256

/-- The `ConvertAclData` state (general.c lines 386-400).  The
`string_buffer` fields carry their stored text; the grant array is the
caller-owned output array, `aclGrantCountReturn` the caller's count cell. -/
structure ConvertAclData where
  ownerId : String
  ownerIdLen : Nat
  ownerDisplayName : String
  ownerDisplayNameLen : Nat
  aclGrantCountReturn : Nat
  aclGrants : List S3AclGrant
  emailAddress : String
  userId : String
  userDisplayName : String
  groupUri : String
  permission : String
deriving DecidableEq

/-- Modelled from the spec: the BoundedAccumulator append-or-fail contract
(the `string_buffer_append` macro of util.h, which is not among the
sources): concatenate as much of the chunk as fits in the remaining
capacity — one slot being reserved for the terminator — and report whether
the entire chunk fit. -/
def string_buffer_append (capacity : Nat) (stored chunk : String) :
    String × Bool :=
  if stored.length + chunk.length ≤ capacity - 1 then (stored ++ chunk, true)
  else (stored ++ ⟨chunk.toList.take (capacity - 1 - stored.length)⟩, false)

/-- The owner-field append of `convertAclXmlCallback` (general.c lines
412-420 and 421-433): `snprintf(&buf[len], size - len - 1, "%.*s", dataLen,
data)` writes at most `size - len - 2` characters and returns the full
`dataLen`, which is added to the running length. -/
def owner_buffer_append (size len : Nat) (stored data : String) :
    String × Nat :=
  (stored ++ ⟨data.toList.take (size - len - 2)⟩, len + data.length)

/-- The grant-subject resolution at the close of a `Grant` element
(general.c lines 492-520).  On success it returns the slot value after the
branch's writes; on failure (`BadAclGrantee`) no field of the slot has been
written. -/
def resolveGrantee (caData : ConvertAclData) (grant : S3AclGrant) :
    Except S3Status S3AclGrant :=
  if caData.emailAddress ≠ "" then
    Except.ok { grant with granteeType := S3GranteeType.AmazonCustomerByEmail,
                           emailAddress := caData.emailAddress }
  else if caData.userId ≠ "" ∧ caData.userDisplayName ≠ "" then
    Except.ok { grant with granteeType := S3GranteeType.CanonicalUser,
                           userId := caData.userId,
                           userDisplayName := caData.userDisplayName }
  else if caData.groupUri ≠ "" then
    if caData.groupUri =
        "http://acs.amazonaws.com/groups/global/AuthenticatedUsers" then
      Except.ok { grant with granteeType := S3GranteeType.AllAwsUsers }
    else if caData.groupUri =
        "http://acs.amazonaws.com/groups/global/AllUsers" then
      Except.ok { grant with granteeType := S3GranteeType.AllUsers }
    else Except.error S3Status.BadAclGrantee
  else Except.error S3Status.BadAclGrantee

/-- The permission resolution at the close of a `Grant` element
(general.c lines 522-539): exact string match against the five permission
strings, anything else fails `BadAclPermission`. -/
def resolvePermission (permission : String) : Except S3Status S3Permission :=
  if permission = "READ" then Except.ok S3Permission.Read
  else if permission = "WRITE" then Except.ok S3Permission.Write
  else if permission = "READ_ACP" then Except.ok S3Permission.ReadACP
  else if permission = "WRITE_ACP" then Except.ok S3Permission.WriteACP
  else if permission = "FULL_CONTROL" then Except.ok S3Permission.FullControl
  else Except.error S3Status.BadAclPermission

/-- `convertAclXmlCallback` (general.c lines 403-552).  A text event
carries `some data`; the element-close sentinel is `none`.  The C
callback's mutation of `*callbackData` is modelled by returning the new
state next to the status.  `S3_MAX_ACL_GRANT_COUNT` (declared in libs3.h,
not among the sources; the spec reads it as the caller-declared
grant-array capacity) is passed explicitly. -/
def convertAclXmlCallback (S3_MAX_ACL_GRANT_COUNT : Nat)
    (elementPath : String) (data : Option String)
    (caData : ConvertAclData) : S3Status × ConvertAclData :=
  match data with
  | some d =>
    if elementPath = "AccessControlPolicy/Owner/ID" then
      let r := owner_buffer_append S3_MAX_GRANTEE_USER_ID_SIZE
                 caData.ownerIdLen caData.ownerId d
      let caData' := { caData with ownerId := r.1, ownerIdLen := r.2 }
      if S3_MAX_GRANTEE_USER_ID_SIZE ≤ caData'.ownerIdLen then
        (S3Status.BadAclUserIdTooLong, caData')
      else (S3Status.OK, caData')
    else if elementPath = "AccessControlPolicy/Owner/DisplayName" then
      let r := owner_buffer_append S3_MAX_GRANTEE_DISPLAY_NAME_SIZE
                 caData.ownerDisplayNameLen caData.ownerDisplayName d
      let caData' := { caData with ownerDisplayName := r.1,
                                   ownerDisplayNameLen := r.2 }
      if S3_MAX_GRANTEE_DISPLAY_NAME_SIZE ≤ caData'.ownerDisplayNameLen then
        (S3Status.BadAclUserDisplayNameTooLong, caData')
      else (S3Status.OK, caData')
    else if elementPath =
        "AccessControlPolicy/AccessControlList/Grant/Grantee/EmailAddress" then
      let r := string_buffer_append S3_MAX_GRANTEE_EMAIL_ADDRESS_SIZE
                 caData.emailAddress d
      let caData' := { caData with emailAddress := r.1 }
      if r.2 then (S3Status.OK, caData')
      else (S3Status.BadAclEmailAddressTooLong, caData')
    else if elementPath =
        "AccessControlPolicy/AccessControlList/Grant/Grantee/ID" then
      let r := string_buffer_append S3_MAX_GRANTEE_USER_ID_SIZE
                 caData.userId d
      let caData' := { caData with userId := r.1 }
      if r.2 then (S3Status.OK, caData')
      else (S3Status.BadAclUserIdTooLong, caData')
    else if elementPath =
        "AccessControlPolicy/AccessControlList/Grant/Grantee/DisplayName" then
      let r := string_buffer_append S3_MAX_GRANTEE_DISPLAY_NAME_SIZE
                 caData.userDisplayName d
      let caData' := { caData with userDisplayName := r.1 }
      if r.2 then (S3Status.OK, caData')
      else (S3Status.BadAclUserDisplayNameTooLong, caData')
    else if elementPath =
        "AccessControlPolicy/AccessControlList/Grant/Grantee/URI" then
      let r := string_buffer_append 128 caData.groupUri d
      let caData' := { caData with groupUri := r.1 }
      if r.2 then (S3Status.OK, caData')
      else (S3Status.BadAclGroupUriTooLong, caData')
    else if elementPath =
        "AccessControlPolicy/AccessControlList/Grant/Permission" then
      let r := string_buffer_append 32 caData.permission d
      let caData' := { caData with permission := r.1 }
      if r.2 then (S3Status.OK, caData')
      else (S3Status.BadAclPermissionTooLong, caData')
    else (S3Status.OK, caData)
  | none =>
    if elementPath = "AccessControlPolicy/AccessControlList/Grant" then
      if caData.aclGrantCountReturn = S3_MAX_ACL_GRANT_COUNT then
        (S3Status.TooManyAclGrants, caData)
      else
        match resolveGrantee caData
            (caData.aclGrants.getD caData.aclGrantCountReturn blankGrant) with
        | Except.error st => (st, caData)
        | Except.ok g1 =>
          match resolvePermission caData.permission with
          | Except.error st =>
            (st, { caData with
                     aclGrants := caData.aclGrants.set
                       caData.aclGrantCountReturn g1 })
          | Except.ok p =>
            (S3Status.OK,
             { caData with
                 aclGrants := caData.aclGrants.set caData.aclGrantCountReturn
                   { g1 with permission := p },
                 aclGrantCountReturn := caData.aclGrantCountReturn + 1,
                 emailAddress := "", userId := "", userDisplayName := "",
                 groupUri := "", permission := "" })
    else (S3Status.OK, caData)

/-- The state set up by `S3_convert_acl` before parsing (general.c lines
558-573): owner fields zeroed, grant count zeroed, the five transient
accumulators emptied; the grant array is the caller's. -/
def convertAclDataStart (aclGrants : List S3AclGrant) : ConvertAclData :=
  { ownerId := "", ownerIdLen := 0, ownerDisplayName := "",
    ownerDisplayNameLen := 0, aclGrantCountReturn := 0,
    aclGrants := aclGrants, emailAddress := "", userId := "",
    userDisplayName := "", groupUri := "", permission := "" }

theorem c_isalpha_underscore : c_isalpha '_' = false := by decide

theorem c_isdigit_underscore : c_isdigit '_' = false := by decide

theorem c_isalpha_dash : c_isalpha '-' = false := by decide

theorem c_isdigit_dash : c_isdigit '-' = false := by decide

theorem c_isalpha_dot : c_isalpha '.' = false := by decide

theorem c_isdigit_dot : c_isdigit '.' = false := by decide

theorem dash_ne_underscore : ('-' : Char) ≠ '_' := by decide

theorem dot_ne_underscore : ('.' : Char) ≠ '_' := by decide

theorem dot_ne_dash : ('.' : Char) ≠ '-' := by decide

/-- Invariant of the scan loop: starting from `len ≤ maxlen`, the final
`len` never exceeds `maxlen`, and the scan returns `TooLong` exactly when
it stops with `len = maxlen` on unconsumed input. -/
theorem bucket_scan_len_le (virtualHostStyle : Bool) (maxlen : Nat)
    (cs : List Char) :
    ∀ (len : Nat) (hasDot hasNonDigit : Bool) (prev : Option Char),
      len ≤ maxlen →
      (bucket_scan virtualHostStyle maxlen cs len hasDot hasNonDigit
          prev).2.1 ≤ maxlen ∧
      ((bucket_scan virtualHostStyle maxlen cs len hasDot hasNonDigit
            prev).1 = S3Status.InvalidBucketNameTooLong ↔
        (bucket_scan virtualHostStyle maxlen cs len hasDot hasNonDigit
            prev).2.1 = maxlen ∧
        (bucket_scan virtualHostStyle maxlen cs len hasDot hasNonDigit
            prev).2.2 ≠ []) := by
  induction cs with
  | nil =>
    intro len hd hnd prev hle
    constructor
    · simpa [bucket_scan] using hle
    · simp only [bucket_scan]
      split_ifs <;> simp
  | cons c cs ih =>
    intro len hd hnd prev hle
    simp only [bucket_scan]
    split_ifs with h1 h2 h3 h4 h5 h6 h7 h8 h9 h10
    · simp [h1]
    · exact ih (len + 1) hd true (some c) (by omega)
    · exact ih (len + 1) hd hnd (some c) (by omega)
    · exact ⟨hle, by simp [h1]⟩
    · exact ⟨hle, by simp [h1]⟩
    · exact ih (len + 1) hd true (some c) (by omega)
    · exact ⟨hle, by simp [h1]⟩
    · exact ih (len + 1) hd true (some c) (by omega)
    · exact ⟨hle, by simp [h1]⟩
    · exact ih (len + 1) true hnd (some c) (by omega)
    · exact ⟨hle, by simp [h1]⟩

/-- C4: name validation uses maxLength 63 under VirtualHostStyle and 255
under PathStyle; the too-long check has top precedence per character, so
the accepted length never exceeds maxLength and the scan fails `TooLong`
exactly when a character is reached while the accepted length already
equals maxLength; a 63-character all-alphanumeric name validates `OK` under
VirtualHostStyle and the same name extended by one alphanumeric character
fails `TooLong`. -/
theorem validate_too_long_exact :
    (∀ (name : String) (style : S3UriStyle),
        (bucket_scan (style == S3UriStyle.VirtualHost)
            (if style == S3UriStyle.VirtualHost then 63 else 255)
            name.toList 0 false false none).2.1 ≤
          (if style == S3UriStyle.VirtualHost then 63 else 255) ∧
        (S3_validate_bucket_name name style =
            S3Status.InvalidBucketNameTooLong ↔
          (bucket_scan (style == S3UriStyle.VirtualHost)
              (if style == S3UriStyle.VirtualHost then 63 else 255)
              name.toList 0 false false none).2.1 =
            (if style == S3UriStyle.VirtualHost then 63 else 255) ∧
          (bucket_scan (style == S3UriStyle.VirtualHost)
              (if style == S3UriStyle.VirtualHost then 63 else 255)
              name.toList 0 false false none).2.2 ≠ [])) ∧
    (∀ (virtualHostStyle : Bool) (maxlen : Nat) (c : Char) (cs : List Char)
        (hasDot hasNonDigit : Bool) (prev : Option Char),
        bucket_scan virtualHostStyle maxlen (c :: cs) maxlen hasDot
            hasNonDigit prev =
          (S3Status.InvalidBucketNameTooLong, maxlen, c :: cs)) ∧
    S3_validate_bucket_name (String.mk (List.replicate 63 'a'))
        S3UriStyle.VirtualHost = S3Status.OK ∧
    S3_validate_bucket_name (String.mk (List.replicate 64 'a'))
        S3UriStyle.VirtualHost = S3Status.InvalidBucketNameTooLong := by
  refine ⟨fun name style =>
      bucket_scan_len_le _ _ _ 0 false false none (Nat.zero_le _),
    fun vhs maxlen c cs hd hnd prev => by simp [bucket_scan],
    by decide, by decide⟩

/-- C5: under VirtualHostStyle an underscore fails `Character`, a `-`
immediately preceded by `.` fails `CharacterSequence`, and a `.`
immediately preceded by `-` fails `CharacterSequence`; under PathStyle all
three are accepted (length incremented, `_` and `-` marking hasNonDigit and
`.` marking hasDot); validate("my.-bucket") and validate("my-.bucket")
each fail `CharacterSequence` under VirtualHostStyle and both return `OK`
under PathStyle. -/
theorem validate_style_char_rules :
    (∀ (maxlen len : Nat) (cs : List Char) (hasDot hasNonDigit : Bool)
        (prev : Option Char), len ≠ maxlen → len ≠ 0 →
        bucket_scan true maxlen ('_' :: cs) len hasDot hasNonDigit prev =
          (S3Status.InvalidBucketNameCharacter, len, '_' :: cs)) ∧
    (∀ (maxlen len : Nat) (cs : List Char) (hasDot hasNonDigit : Bool),
        len ≠ maxlen → len ≠ 0 →
        bucket_scan true maxlen ('-' :: cs) len hasDot hasNonDigit
            (some '.') =
          (S3Status.InvalidBucketNameCharacterSequence, len, '-' :: cs)) ∧
    (∀ (maxlen len : Nat) (cs : List Char) (hasDot hasNonDigit : Bool),
        len ≠ maxlen → len ≠ 0 →
        bucket_scan true maxlen ('.' :: cs) len hasDot hasNonDigit
            (some '-') =
          (S3Status.InvalidBucketNameCharacterSequence, len, '.' :: cs)) ∧
    (∀ (maxlen len : Nat) (cs : List Char) (hasDot hasNonDigit : Bool)
        (prev : Option Char), len ≠ maxlen → len ≠ 0 →
        bucket_scan false maxlen ('_' :: cs) len hasDot hasNonDigit prev =
          bucket_scan false maxlen cs (len + 1) hasDot true (some '_')) ∧
    (∀ (maxlen len : Nat) (cs : List Char) (hasDot hasNonDigit : Bool)
        (prev : Option Char), len ≠ maxlen → len ≠ 0 →
        bucket_scan false maxlen ('-' :: cs) len hasDot hasNonDigit prev =
          bucket_scan false maxlen cs (len + 1) hasDot true (some '-')) ∧
    (∀ (maxlen len : Nat) (cs : List Char) (hasDot hasNonDigit : Bool)
        (prev : Option Char), len ≠ maxlen → len ≠ 0 →
        bucket_scan false maxlen ('.' :: cs) len hasDot hasNonDigit prev =
          bucket_scan false maxlen cs (len + 1) true hasNonDigit
            (some '.')) ∧
    S3_validate_bucket_name "my.-bucket" S3UriStyle.VirtualHost =
      S3Status.InvalidBucketNameCharacterSequence ∧
    S3_validate_bucket_name "my-.bucket" S3UriStyle.VirtualHost =
      S3Status.InvalidBucketNameCharacterSequence ∧
    S3_validate_bucket_name "my.-bucket" S3UriStyle.Path = S3Status.OK ∧
    S3_validate_bucket_name "my-.bucket" S3UriStyle.Path = S3Status.OK := by
  refine ⟨fun maxlen len cs hd hnd prev h1 h2 => by
      simp [bucket_scan, h1, h2, c_isalpha_underscore, c_isdigit_underscore],
    fun maxlen len cs hd hnd h1 h2 => by
      simp [bucket_scan, h1, h2, c_isalpha_dash, c_isdigit_dash,
        dash_ne_underscore],
    fun maxlen len cs hd hnd h1 h2 => by
      simp [bucket_scan, h1, h2, c_isalpha_dot, c_isdigit_dot,
        dot_ne_underscore, dot_ne_dash],
    fun maxlen len cs hd hnd prev h1 h2 => by
      simp [bucket_scan, h1, h2, c_isalpha_underscore, c_isdigit_underscore],
    fun maxlen len cs hd hnd prev h1 h2 => by
      simp [bucket_scan, h1, h2, c_isalpha_dash, c_isdigit_dash,
        dash_ne_underscore],
    fun maxlen len cs hd hnd prev h1 h2 => by
      simp [bucket_scan, h1, h2, c_isalpha_dot, c_isdigit_dot,
        dot_ne_underscore, dot_ne_dash],
    by decide, by decide, by decide, by decide⟩

/-- C5 witness: the general parts of `validate_style_char_rules` applied at
concrete scan states. -/
theorem validate_style_char_rules_witness :
    bucket_scan true 63 ['_'] 2 false true none =
      (S3Status.InvalidBucketNameCharacter, 2, ['_']) ∧
    bucket_scan true 63 ['-'] 2 true true (some '.') =
      (S3Status.InvalidBucketNameCharacterSequence, 2, ['-']) ∧
    bucket_scan true 63 ['.'] 2 false true (some '-') =
      (S3Status.InvalidBucketNameCharacterSequence, 2, ['.']) ∧
    bucket_scan false 255 ['_'] 2 false true none =
      bucket_scan false 255 [] 3 false true (some '_') :=
  ⟨validate_style_char_rules.1 63 2 [] false true none
      (by decide) (by decide),
   validate_style_char_rules.2.1 63 2 [] true true (by decide) (by decide),
   validate_style_char_rules.2.2.1 63 2 [] false true
      (by decide) (by decide),
   validate_style_char_rules.2.2.2.1 255 2 [] false true none
      (by decide) (by decide)⟩

/-- C6: when the per-character scan consumes the whole name without
failing, validation fails `TooShort` if the accepted length is below 3,
otherwise fails the dot-quad check if the name had a dot and no non-digit,
and otherwise succeeds; validate("ab", PathStyle) = TooShort,
validate("abc", PathStyle) = OK, and validate("192.168.1.1", PathStyle)
fails the dot-quad check. -/
theorem validate_post_scan_checks :
    (∀ (virtualHostStyle : Bool) (maxlen len : Nat)
        (hasDot hasNonDigit : Bool) (prev : Option Char),
        bucket_scan virtualHostStyle maxlen [] len hasDot hasNonDigit
            prev =
          (if len < 3 then S3Status.InvalidBucketNameTooShort
           else if hasDot && !hasNonDigit then
             S3Status.InvalidBucketNameDotQuad
           else S3Status.OK, len, [])) ∧
    S3_validate_bucket_name "ab" S3UriStyle.Path =
      S3Status.InvalidBucketNameTooShort ∧
    S3_validate_bucket_name "abc" S3UriStyle.Path = S3Status.OK ∧
    S3_validate_bucket_name "192.168.1.1" S3UriStyle.Path =
      S3Status.InvalidBucketNameDotQuad :=
  ⟨fun _ _ _ _ _ _ => rfl, by decide, by decide, by decide⟩

/-- C8: the retryability predicate returns true for exactly the six
statuses NameLookupError, FailedToConnect, ConnectionFailed,
ErrorInternalError, ErrorOperationAborted and ErrorRequestTimeout, and
false for every other status; in particular ConnectionFailed is retryable
and ErrorAccessDenied is not. -/
theorem retryable_exactly_six :
    (∀ s : S3Status, S3_status_is_retryable s = true ↔
        (s = S3Status.NameLookupError ∨ s = S3Status.FailedToConnect ∨
         s = S3Status.ConnectionFailed ∨ s = S3Status.ErrorInternalError ∨
         s = S3Status.ErrorOperationAborted ∨
         s = S3Status.ErrorRequestTimeout)) ∧
    S3_status_is_retryable S3Status.ConnectionFailed = true ∧
    S3_status_is_retryable S3Status.ErrorAccessDenied = false := by
  refine ⟨fun s => ?_, rfl, rfl⟩
  cases s <;> decide

/-- Helper: unfolding of `convertAclXmlCallback` at the close of an
`AccessControlList/Grant` element (general.c lines 481-548). -/
theorem convert_close_grant (maxGrantCount : Nat) (caData : ConvertAclData) :
    convertAclXmlCallback maxGrantCount
        "AccessControlPolicy/AccessControlList/Grant" none caData =
      if caData.aclGrantCountReturn = maxGrantCount then
        (S3Status.TooManyAclGrants, caData)
      else
        match resolveGrantee caData
            (caData.aclGrants.getD caData.aclGrantCountReturn blankGrant) with
        | Except.error st => (st, caData)
        | Except.ok g1 =>
          match resolvePermission caData.permission with
          | Except.error st =>
            (st,
             { caData with
                 aclGrants :=
                   caData.aclGrants.set caData.aclGrantCountReturn g1 })
          | Except.ok p =>
            (S3Status.OK,
             { caData with
                 aclGrants :=
                   caData.aclGrants.set caData.aclGrantCountReturn
                     { g1 with permission := p },
                 aclGrantCountReturn := caData.aclGrantCountReturn + 1,
                 emailAddress := "", userId := "", userDisplayName := "",
                 groupUri := "", permission := "" }) := rfl

/-- Helper: `resolveGrantee` fails only with `BadAclGrantee`. -/
theorem resolveGrantee_error (caData : ConvertAclData) (g : S3AclGrant)
    (st : S3Status) (h : resolveGrantee caData g = Except.error st) :
    st = S3Status.BadAclGrantee := by
  unfold resolveGrantee at h
  split_ifs at h <;> simp_all

/-- Helper: `resolvePermission` fails only with `BadAclPermission`. -/
theorem resolvePermission_error (p : String) (st : S3Status)
    (h : resolvePermission p = Except.error st) :
    st = S3Status.BadAclPermission := by
  unfold resolvePermission at h
  split_ifs at h
  all_goals simp_all

/-- Concrete assembler state with only the grantee id populated. -/
def idOnlyAclData : ConvertAclData :=
  { convertAclDataStart [blankGrant] with
      userId := "abc", permission := "READ" }

/-- Concrete assembler state with an email subject and an unknown
permission string. -/
def emailBogusAclData : ConvertAclData :=
  { convertAclDataStart [blankGrant] with
      emailAddress := "a@b", permission := "BOGUS" }

/-- Concrete assembler state with an email subject and permission READ. -/
def emailReadAclData : ConvertAclData :=
  { convertAclDataStart [blankGrant] with
      emailAddress := "a@b", permission := "READ" }

/-- The slot value produced by resolving an email subject over a blank
slot. -/
def emailSubjectGrant (email : String) : S3AclGrant :=
  { blankGrant with
      granteeType := S3GranteeType.AmazonCustomerByEmail,
      emailAddress := email }

/-- C1: at the close of a Grant element the subject is resolved in exactly
this priority order: non-empty email gives ByEmail; else non-empty
granteeId and granteeDisplayName give CanonicalUser; else a non-empty
groupUri is matched against the two well-known URI literals, any other URI
failing BadGrantee; else (nothing populated, or a granteeId without a
displayName) BadGrantee.  In particular a grant with only the granteeId
accumulator non-empty closes with BadGrantee, not CanonicalUser. -/
theorem grant_subject_priority :
    (∀ (caData : ConvertAclData) (g : S3AclGrant),
        caData.emailAddress ≠ "" →
        resolveGrantee caData g =
          Except.ok
            { g with
                granteeType := S3GranteeType.AmazonCustomerByEmail,
                emailAddress := caData.emailAddress }) ∧
    (∀ (caData : ConvertAclData) (g : S3AclGrant),
        caData.emailAddress = "" → caData.userId ≠ "" →
        caData.userDisplayName ≠ "" →
        resolveGrantee caData g =
          Except.ok
            { g with
                granteeType := S3GranteeType.CanonicalUser,
                userId := caData.userId,
                userDisplayName := caData.userDisplayName }) ∧
    (∀ (caData : ConvertAclData) (g : S3AclGrant),
        caData.emailAddress = "" →
        ¬(caData.userId ≠ "" ∧ caData.userDisplayName ≠ "") →
        caData.groupUri =
          "http://acs.amazonaws.com/groups/global/AuthenticatedUsers" →
        resolveGrantee caData g =
          Except.ok { g with granteeType := S3GranteeType.AllAwsUsers }) ∧
    (∀ (caData : ConvertAclData) (g : S3AclGrant),
        caData.emailAddress = "" →
        ¬(caData.userId ≠ "" ∧ caData.userDisplayName ≠ "") →
        caData.groupUri =
          "http://acs.amazonaws.com/groups/global/AllUsers" →
        resolveGrantee caData g =
          Except.ok { g with granteeType := S3GranteeType.AllUsers }) ∧
    (∀ (caData : ConvertAclData) (g : S3AclGrant),
        caData.emailAddress = "" →
        ¬(caData.userId ≠ "" ∧ caData.userDisplayName ≠ "") →
        caData.groupUri ≠ "" →
        caData.groupUri ≠
          "http://acs.amazonaws.com/groups/global/AuthenticatedUsers" →
        caData.groupUri ≠
          "http://acs.amazonaws.com/groups/global/AllUsers" →
        resolveGrantee caData g = Except.error S3Status.BadAclGrantee) ∧
    (∀ (caData : ConvertAclData) (g : S3AclGrant),
        caData.emailAddress = "" →
        ¬(caData.userId ≠ "" ∧ caData.userDisplayName ≠ "") →
        caData.groupUri = "" →
        resolveGrantee caData g = Except.error S3Status.BadAclGrantee) ∧
    (∀ (maxGrantCount : Nat) (caData : ConvertAclData),
        caData.aclGrantCountReturn ≠ maxGrantCount →
        caData.emailAddress = "" → caData.userId ≠ "" →
        caData.userDisplayName = "" → caData.groupUri = "" →
        convertAclXmlCallback maxGrantCount
            "AccessControlPolicy/AccessControlList/Grant" none caData =
          (S3Status.BadAclGrantee, caData)) := by
  refine ⟨fun caData g h1 => by unfold resolveGrantee; rw [if_pos h1],
    fun caData g h1 h2 h3 => by
      unfold resolveGrantee
      rw [if_neg (fun h => h h1), if_pos ⟨h2, h3⟩],
    fun caData g h1 h2 h3 => by
      unfold resolveGrantee
      rw [if_neg (fun h => h h1), if_neg h2,
        if_pos (show caData.groupUri ≠ "" by rw [h3]; decide), if_pos h3],
    fun caData g h1 h2 h3 => by
      unfold resolveGrantee
      rw [if_neg (fun h => h h1), if_neg h2,
        if_pos (show caData.groupUri ≠ "" by rw [h3]; decide),
        if_neg (show ¬caData.groupUri =
          "http://acs.amazonaws.com/groups/global/AuthenticatedUsers" by
            rw [h3]; decide), if_pos h3],
    fun caData g h1 h2 h3 h4 h5 => by
      unfold resolveGrantee
      rw [if_neg (fun h => h h1), if_neg h2, if_pos h3, if_neg h4,
        if_neg h5],
    fun caData g h1 h2 h3 => by
      unfold resolveGrantee
      rw [if_neg (fun h => h h1), if_neg h2, if_neg (fun h => h h3)],
    fun maxGrantCount caData hcap h1 h2 h3 h4 => by
      rw [convert_close_grant, if_neg hcap]
      have hres : resolveGrantee caData
          (caData.aclGrants.getD caData.aclGrantCountReturn blankGrant) =
          Except.error S3Status.BadAclGrantee := by
        unfold resolveGrantee
        rw [if_neg (fun h => h h1),
          if_neg (fun h => h.2 h3), if_neg (fun h => h h4)]
      rw [hres]⟩

/-- C1 witness: a grant whose granteeId accumulator is populated but whose
displayName, groupUri and email accumulators are empty closes with
BadGrantee and an unchanged state. -/
theorem grant_subject_priority_witness :
    convertAclXmlCallback 100 "AccessControlPolicy/AccessControlList/Grant"
        none idOnlyAclData = (S3Status.BadAclGrantee, idOnlyAclData) :=
  grant_subject_priority.2.2.2.2.2.2 100 idOnlyAclData (by decide) rfl
    (by decide) rfl rfl

/-- C2: when a grant closes and its subject has been resolved, the
permission accumulator is matched exactly against the five strings READ,
WRITE, READ_ACP, WRITE_ACP and FULL_CONTROL, mapping to Read, Write,
ReadACP, WriteACP and FullControl; every other value, including the empty
string, makes the grant resolution fail with BadPermission. -/
theorem grant_permission_match :
    resolvePermission "READ" = Except.ok S3Permission.Read ∧
    resolvePermission "WRITE" = Except.ok S3Permission.Write ∧
    resolvePermission "READ_ACP" = Except.ok S3Permission.ReadACP ∧
    resolvePermission "WRITE_ACP" = Except.ok S3Permission.WriteACP ∧
    resolvePermission "FULL_CONTROL" = Except.ok S3Permission.FullControl ∧
    resolvePermission "" = Except.error S3Status.BadAclPermission ∧
    (∀ p : String, p ≠ "READ" → p ≠ "WRITE" → p ≠ "READ_ACP" →
        p ≠ "WRITE_ACP" → p ≠ "FULL_CONTROL" →
        resolvePermission p = Except.error S3Status.BadAclPermission) ∧
    (∀ (maxGrantCount : Nat) (caData : ConvertAclData) (g1 : S3AclGrant),
        caData.aclGrantCountReturn ≠ maxGrantCount →
        resolveGrantee caData
            (caData.aclGrants.getD caData.aclGrantCountReturn blankGrant) =
          Except.ok g1 →
        ((convertAclXmlCallback maxGrantCount
              "AccessControlPolicy/AccessControlList/Grant" none
              caData).1 = S3Status.BadAclPermission ↔
          resolvePermission caData.permission =
            Except.error S3Status.BadAclPermission)) := by
  refine ⟨rfl, rfl, rfl, rfl, rfl, rfl,
    fun p h1 h2 h3 h4 h5 => by
      unfold resolvePermission
      rw [if_neg h1, if_neg h2, if_neg h3, if_neg h4, if_neg h5],
    fun maxGrantCount caData g1 hcap hres => ?_⟩
  rw [convert_close_grant, if_neg hcap, hres]
  cases hp : resolvePermission caData.permission with
  | ok p => simp
  | error st =>
    have hst := resolvePermission_error caData.permission st hp
    subst hst
    simp

/-- C2 witness: the unmatched permission string BOGUS, with a resolvable
email subject, makes the grant close fail with BadPermission. -/
theorem grant_permission_match_witness :
    resolvePermission "BOGUS" = Except.error S3Status.BadAclPermission ∧
    ((convertAclXmlCallback 100
          "AccessControlPolicy/AccessControlList/Grant" none
          emailBogusAclData).1 = S3Status.BadAclPermission ↔
      resolvePermission emailBogusAclData.permission =
        Except.error S3Status.BadAclPermission) :=
  ⟨grant_permission_match.2.2.2.2.2.2.1 "BOGUS" (by decide) (by decide)
      (by decide) (by decide) (by decide),
   grant_permission_match.2.2.2.2.2.2.2 100 emailBogusAclData
     (emailSubjectGrant "a@b") (by decide) (by rfl)⟩

/-- Concrete assembler state whose grant array already holds one grant and
whose count equals the capacity 1. -/
def fullAclData : ConvertAclData :=
  { convertAclDataStart [emailSubjectGrant "a@b"] with
      aclGrantCountReturn := 1, emailAddress := "c@d", permission := "READ" }

/-- C3: when a grant closes with grantCount already equal to the
grant-array capacity, the assembler fails TooManyAclGrants before writing
anything: the returned state is the old state, so the array entries and
the count are unchanged. -/
theorem too_many_grants_no_write (maxGrantCount : Nat)
    (caData : ConvertAclData)
    (h : caData.aclGrantCountReturn = maxGrantCount) :
    convertAclXmlCallback maxGrantCount
        "AccessControlPolicy/AccessControlList/Grant" none caData =
      (S3Status.TooManyAclGrants, caData) ∧
    (convertAclXmlCallback maxGrantCount
        "AccessControlPolicy/AccessControlList/Grant" none
        caData).2.aclGrants = caData.aclGrants ∧
    (convertAclXmlCallback maxGrantCount
        "AccessControlPolicy/AccessControlList/Grant" none
        caData).2.aclGrantCountReturn = caData.aclGrantCountReturn := by
  rw [convert_close_grant, if_pos h]
  exact ⟨rfl, rfl, rfl⟩

/-- C3 witness: with capacity 1 and one grant already appended, one more
well-formed grant yields TooManyAclGrants and leaves the array entry and
the count unchanged. -/
theorem too_many_grants_no_write_witness :
    convertAclXmlCallback 1 "AccessControlPolicy/AccessControlList/Grant"
        none fullAclData = (S3Status.TooManyAclGrants, fullAclData) ∧
    (convertAclXmlCallback 1 "AccessControlPolicy/AccessControlList/Grant"
        none fullAclData).2.aclGrants = fullAclData.aclGrants ∧
    (convertAclXmlCallback 1 "AccessControlPolicy/AccessControlList/Grant"
        none fullAclData).2.aclGrantCountReturn =
      fullAclData.aclGrantCountReturn :=
  too_many_grants_no_write 1 fullAclData rfl

/-- C9: the five transient accumulators are empty at assembler
construction, and whenever a grant close succeeds the resolved grant is
written into the slot at index grantCount, grantCount is incremented by
one, and all five accumulators are reset to empty. -/
theorem accumulators_empty_invariant :
    (∀ aclGrants : List S3AclGrant,
        (convertAclDataStart aclGrants).emailAddress = "" ∧
        (convertAclDataStart aclGrants).userId = "" ∧
        (convertAclDataStart aclGrants).userDisplayName = "" ∧
        (convertAclDataStart aclGrants).groupUri = "" ∧
        (convertAclDataStart aclGrants).permission = "") ∧
    (∀ (maxGrantCount : Nat) (caData caData' : ConvertAclData)
        (st : S3Status),
        convertAclXmlCallback maxGrantCount
            "AccessControlPolicy/AccessControlList/Grant" none caData =
          (st, caData') →
        st = S3Status.OK →
        ∃ g1 p,
          resolveGrantee caData (caData.aclGrants.getD
              caData.aclGrantCountReturn blankGrant) = Except.ok g1 ∧
          resolvePermission caData.permission = Except.ok p ∧
          caData' =
            { caData with
                aclGrants :=
                  caData.aclGrants.set caData.aclGrantCountReturn
                    { g1 with permission := p },
                aclGrantCountReturn := caData.aclGrantCountReturn + 1,
                emailAddress := "", userId := "", userDisplayName := "",
                groupUri := "", permission := "" }) := by
  refine ⟨fun aclGrants => ⟨rfl, rfl, rfl, rfl, rfl⟩,
    fun maxGrantCount caData caData' st heq hOK => ?_⟩
  subst hOK
  rw [convert_close_grant] at heq
  by_cases hc : caData.aclGrantCountReturn = maxGrantCount
  · rw [if_pos hc] at heq
    simp at heq
  · rw [if_neg hc] at heq
    cases hres : resolveGrantee caData
        (caData.aclGrants.getD caData.aclGrantCountReturn blankGrant) with
    | error st2 =>
      rw [hres] at heq
      have := resolveGrantee_error _ _ _ hres
      subst this
      simp at heq
    | ok g1 =>
      rw [hres] at heq
      cases hp : resolvePermission caData.permission with
      | error st2 =>
        rw [hp] at heq
        have := resolvePermission_error _ _ hp
        subst this
        simp at heq
      | ok p =>
        rw [hp] at heq
        injection heq with h1 h2
        exact ⟨g1, p, rfl, rfl, h2.symm⟩

/-- C9 witness: a successful email grant close from `emailReadAclData`
writes the resolved grant at index 0, increments the count and empties all
five accumulators. -/
theorem accumulators_empty_invariant_witness :
    ∃ g1 p,
      resolveGrantee emailReadAclData (emailReadAclData.aclGrants.getD
          emailReadAclData.aclGrantCountReturn blankGrant) =
        Except.ok g1 ∧
      resolvePermission emailReadAclData.permission = Except.ok p ∧
      (convertAclXmlCallback 100
          "AccessControlPolicy/AccessControlList/Grant" none
          emailReadAclData).2 =
        { emailReadAclData with
            aclGrants :=
              emailReadAclData.aclGrants.set
                emailReadAclData.aclGrantCountReturn
                { g1 with permission := p },
            aclGrantCountReturn := emailReadAclData.aclGrantCountReturn + 1,
            emailAddress := "", userId := "", userDisplayName := "",
            groupUri := "", permission := "" } :=
  accumulators_empty_invariant.2 100 emailReadAclData
    (convertAclXmlCallback 100
        "AccessControlPolicy/AccessControlList/Grant" none
        emailReadAclData).2
    (convertAclXmlCallback 100
        "AccessControlPolicy/AccessControlList/Grant" none
        emailReadAclData).1 rfl (by rfl)

/-- C10: when the subject resolves but permission resolution fails
BadPermission at a grant close, the slot at index grantCount has already
been overwritten with the resolved subject (grantee type and subject
data), grantCount is not incremented, and every other array entry — in
particular every entry below grantCount — is unchanged. -/
theorem bad_permission_partial_write (maxGrantCount : Nat)
    (caData : ConvertAclData) (g1 : S3AclGrant) (st : S3Status)
    (hcap : caData.aclGrantCountReturn ≠ maxGrantCount)
    (hlen : caData.aclGrantCountReturn < caData.aclGrants.length)
    (hsub : resolveGrantee caData (caData.aclGrants.getD
        caData.aclGrantCountReturn blankGrant) = Except.ok g1)
    (hperm : resolvePermission caData.permission = Except.error st) :
    (convertAclXmlCallback maxGrantCount
        "AccessControlPolicy/AccessControlList/Grant" none caData).1 =
      S3Status.BadAclPermission ∧
    (convertAclXmlCallback maxGrantCount
        "AccessControlPolicy/AccessControlList/Grant" none caData).2 =
      { caData with
          aclGrants :=
            caData.aclGrants.set caData.aclGrantCountReturn g1 } ∧
    (convertAclXmlCallback maxGrantCount
        "AccessControlPolicy/AccessControlList/Grant" none
        caData).2.aclGrantCountReturn = caData.aclGrantCountReturn ∧
    (convertAclXmlCallback maxGrantCount
        "AccessControlPolicy/AccessControlList/Grant" none
        caData).2.aclGrants[caData.aclGrantCountReturn]? = some g1 ∧
    (∀ i : Nat, i ≠ caData.aclGrantCountReturn →
        (convertAclXmlCallback maxGrantCount
            "AccessControlPolicy/AccessControlList/Grant" none
            caData).2.aclGrants[i]? = caData.aclGrants[i]?) := by
  have hst := resolvePermission_error _ _ hperm
  subst hst
  rw [convert_close_grant, if_neg hcap, hsub, hperm]
  refine ⟨rfl, rfl, rfl, ?_, ?_⟩
  · exact List.getElem?_set_eq_of_lt g1 hlen
  · intro i hi
    exact List.getElem?_set_ne (fun h => hi h.symm)

/-- C10 witness: closing a grant with subject a@b and permission BOGUS
fails BadPermission after overwriting slot 0 with the resolved subject,
leaving the count and every other entry unchanged. -/
theorem bad_permission_partial_write_witness :
    (convertAclXmlCallback 100
        "AccessControlPolicy/AccessControlList/Grant" none
        emailBogusAclData).1 = S3Status.BadAclPermission ∧
    (convertAclXmlCallback 100
        "AccessControlPolicy/AccessControlList/Grant" none
        emailBogusAclData).2 =
      { emailBogusAclData with
          aclGrants :=
            emailBogusAclData.aclGrants.set
              emailBogusAclData.aclGrantCountReturn
              (emailSubjectGrant "a@b") } ∧
    (convertAclXmlCallback 100
        "AccessControlPolicy/AccessControlList/Grant" none
        emailBogusAclData).2.aclGrantCountReturn =
      emailBogusAclData.aclGrantCountReturn ∧
    (convertAclXmlCallback 100
        "AccessControlPolicy/AccessControlList/Grant" none
        emailBogusAclData).2.aclGrants[emailBogusAclData.aclGrantCountReturn]?
      = some (emailSubjectGrant "a@b") ∧
    (convertAclXmlCallback 100
        "AccessControlPolicy/AccessControlList/Grant" none
        emailBogusAclData).2.aclGrants[1]? =
      emailBogusAclData.aclGrants[1]? := by
  have H := bad_permission_partial_write 100 emailBogusAclData
    (emailSubjectGrant "a@b") S3Status.BadAclPermission (by decide)
    (by decide) (by rfl) (by rfl)
  exact ⟨H.1, H.2.1, H.2.2.1, H.2.2.2.1, H.2.2.2.2 1 (by decide)⟩

/-- A 200-character chunk, longer than the 128-slot id buffers. -/
def longA : String := String.mk (List.replicate 200 'a')

set_option maxRecDepth 10000 in
/-- C7 counterexample: overflowing the owner-id storage reports
BadAclUserIdTooLong, the very same kind as overflowing the grantee
user-id accumulator; no owner-specific overflow kind exists in the status
enumeration, refuting the claimed distinctness. -/
theorem owner_id_overflow_not_distinct :
    (convertAclXmlCallback 100 "AccessControlPolicy/Owner/ID" (some longA)
        (convertAclDataStart [])).1 = S3Status.BadAclUserIdTooLong ∧
    (convertAclXmlCallback 100
        "AccessControlPolicy/AccessControlList/Grant/Grantee/ID"
        (some longA) (convertAclDataStart [])).1 =
      S3Status.BadAclUserIdTooLong ∧
    (convertAclXmlCallback 100 "AccessControlPolicy/Owner/ID" (some longA)
        (convertAclDataStart [])).1 =
      (convertAclXmlCallback 100
          "AccessControlPolicy/AccessControlList/Grant/Grantee/ID"
          (some longA) (convertAclDataStart [])).1 :=
  ⟨by decide, by decide, by decide⟩

/-- C7 amended: a text event on Owner/ID appends its data (truncated to
the remaining owner-id capacity) to the caller-owned owner-id storage and
fails exactly on overflow with BadAclUserIdTooLong — the same kind a
grantee user-id overflow reports, there being no owner-specific overflow
kind. -/
theorem owner_id_overflow_kind :
    (∀ (maxGrantCount : Nat) (caData : ConvertAclData) (d : String),
        (convertAclXmlCallback maxGrantCount
            "AccessControlPolicy/Owner/ID" (some d) caData).2.ownerId =
          caData.ownerId ++ String.mk (d.toList.take
            (S3_MAX_GRANTEE_USER_ID_SIZE - caData.ownerIdLen - 2)) ∧
        (convertAclXmlCallback maxGrantCount
            "AccessControlPolicy/Owner/ID" (some d)
            caData).2.ownerIdLen = caData.ownerIdLen + d.length ∧
        ((convertAclXmlCallback maxGrantCount
              "AccessControlPolicy/Owner/ID" (some d) caData).1 =
            S3Status.BadAclUserIdTooLong ↔
          S3_MAX_GRANTEE_USER_ID_SIZE ≤ caData.ownerIdLen + d.length)) ∧
    (∀ (maxGrantCount : Nat) (caData : ConvertAclData) (d : String),
        (convertAclXmlCallback maxGrantCount
            "AccessControlPolicy/AccessControlList/Grant/Grantee/ID"
            (some d) caData).1 = S3Status.OK ∨
        (convertAclXmlCallback maxGrantCount
            "AccessControlPolicy/AccessControlList/Grant/Grantee/ID"
            (some d) caData).1 = S3Status.BadAclUserIdTooLong) := by
  refine ⟨fun maxGrantCount caData d => ?_, fun maxGrantCount caData d => ?_⟩
  · simp only [convertAclXmlCallback, owner_buffer_append]
    rw [if_pos trivial]
    split_ifs with h
    · exact ⟨rfl, rfl, by simp_all⟩
    · exact ⟨rfl, rfl, by simp_all⟩
  · simp only [convertAclXmlCallback]
    rw [if_neg (by decide), if_neg (by decide), if_neg (by decide),
      if_pos trivial]
    split_ifs with h
    · exact Or.inl rfl
    · exact Or.inr rfl
